import Mathlib

/-!
# Farmulate soil-backend: shallow embedding

Shallow embedding of `src/soil-backend/app/main.py` (the `/predict`
pipeline and its helpers), with theorems checking the natural-language
specification against it.

Conventions:
* Python floats are modelled as exact rationals (`ℚ`).
* Python strings are modelled as Lean `String`s; the Python string methods
  used by the code (`lower`, `strip`, `replace`, `capitalize`) are
  re-implemented over the character list to match Python semantics
  (in particular `str.capitalize` lowercases the tail, unlike Lean's
  `String.capitalize`).
* The external collaborators (pre-filter image heuristic, YOLO image model,
  XGBoost crop model, companion/avoid tables, persistence sink) are modelled
  as an oracle record `Env`: the pipeline is deterministic given their
  outputs, which is exactly what the orchestration logic sees.
* Python exceptions that escape the handler become `Except.error`;
  dictionary lookups (`bd_values`) become association-list lookups.
-/

namespace Farmulate

/-! ## Python string primitives -/

/-- Characters Python's `str.strip()` removes (ASCII whitespace). -/
def isPySpace (c : Char) : Bool :=
  c = ' ' || c = '\t' || c = '\n' || c = '\r' || c = '\x0b' || c = '\x0c'

/-- Python `s.strip()`: drop leading and trailing whitespace. -/
def pyStrip (s : String) : String :=
  String.mk (((s.data.dropWhile isPySpace).reverse.dropWhile isPySpace).reverse)

/-- Python `s.lower()` (ASCII range, which covers every label in the code). -/
def pyLower (s : String) : String :=
  String.mk (s.data.map Char.toLower)

/-- Python `s.capitalize()`: first character uppercased, the rest lowercased. -/
def pyCapitalize (s : String) : String :=
  match s.data with
  | [] => ""
  | c :: cs => String.mk (c.toUpper :: cs.map Char.toLower)

/-- `listStartsWith pat l` is true when `pat` is an initial segment of `l`. -/
def listStartsWith : List Char → List Char → Bool
  | [], _ => true
  | _ :: _, [] => false
  | p :: ps, c :: cs => p == c && listStartsWith ps cs

/-- One pass of Python `str.replace`, fuelled by the input length so the
recursion is structural (each step consumes at least one character, so
`s.length` fuel always suffices). Replaces non-overlapping occurrences of
`old` left to right. -/
def listReplaceAux (old new : List Char) : Nat → List Char → List Char
  | 0, l => l
  | _ + 1, [] => []
  | fuel + 1, c :: cs =>
    if old ≠ [] ∧ listStartsWith old (c :: cs) = true then
      new ++ listReplaceAux old new fuel (cs.drop (old.length - 1))
    else
      c :: listReplaceAux old new fuel cs

/-- Python `s.replace(old, new)` for non-empty `old` (the code only uses
`" " → "_"` and `"_Trained" → ""`). -/
def pyReplace (s old new : String) : String :=
  String.mk (listReplaceAux old.data new.data s.data.length s.data)

/-! ## Unit converter (`convert_mgkg_to_kgha`, main.py lines 102-112) -/

/-- The bulk-density dictionary `bd_values` (g/cm³), keys lowercase. -/
def bd_values : List (String × ℚ) :=
  [("sandy", 8/5), ("loamy", 13/10), ("clay", 23/20), ("silt", 5/4)]

/-- `convert_mgkg_to_kgha(N, P, K, soil_type)`: lowercase the texture, fail
(`ValueError`, modelled as `none`) when it is not a `bd_values` key,
otherwise scale each nutrient by `bulk_density * 30 * 1e5 / 1e6`. -/
def convert_mgkg_to_kgha (N_mgkg P_mgkg K_mgkg : ℚ) (soil_type : String) :
    Option (ℚ × ℚ × ℚ) :=
  match List.lookup (pyLower soil_type) bd_values with
  | none => none
  | some bulk_density =>
    let soil_mass : ℚ := bulk_density * 30 * 100000
    some (N_mgkg * (soil_mass / 1000000),
          P_mgkg * (soil_mass / 1000000),
          K_mgkg * (soil_mass / 1000000))

/-! ## Detection thresholds and ranges (main.py lines 153-161) -/

/-- `SOIL_CONF_THRESHOLD = 0.5`. -/
def SOIL_CONF_THRESHOLD : ℚ := 5/10

/-- `CROP_CONF_THRESHOLD = 0.5` — legacy constant, kept for reference and
unused by the gating logic. -/
def CROP_CONF_THRESHOLD : ℚ := 5/10

/-- `CROP_TOP_PROB_THRESHOLD = 0.7` — the top-probability gate actually used. -/
def CROP_TOP_PROB_THRESHOLD : ℚ := 7/10

/-- `NPK_MIN = 0`. -/
def NPK_MIN : ℚ := 0

/-- `NPK_MAX = 500` (kg/ha). -/
def NPK_MAX : ℚ := 500

/-- `PH_MIN = 3.5`. -/
def PH_MIN : ℚ := 35/10

/-- `PH_MAX = 9.5`. -/
def PH_MAX : ℚ := 95/10

/-- The not-soil sentinel set checked against the normalized YOLO label
(main.py line 339). -/
def NOT_SOIL_SENTINELS : List String :=
  ["not_soil", "no_soil", "no_soil_detected", "notsoil"]

/-! ## Request / response data model -/

/-- `PredictRequest` (main.py lines 87-97). The string fields only flow into
the persistence record, which the response does not depend on. -/
structure PredictRequest where
  imageUrl : String
  image_name : Option String
  N : ℚ
  P : ℚ
  K : ℚ
  ph : ℚ
  pot_name : String
deriving Repr, DecidableEq

/-- `converted_values` object of the response JSON. -/
structure ConvertedValues where
  N : ℚ
  P : ℚ
  K : ℚ
  ph : ℚ
deriving Repr, DecidableEq

/-- The `/predict` response JSON shape. -/
structure PredictionResult where
  soil_texture : String
  recommended_crop : String
  companions : List String
  avoid : List String
  confidence : Option ℚ
  converted_values : ConvertedValues
deriving Repr, DecidableEq

/-- `HTTPException`s the handler can raise after authentication and a
successful image fetch: `ValueError` from the converter surfaces as
"NPK conversion failed" (400), an XGBoost exception as
"XGBoost prediction failed" (500). -/
inductive PredictError where
  | conversionFailed
  | xgbFailed
deriving Repr, DecidableEq

/-- Output of a YOLO run whose `result.probs` is present:
`top1conf` and the class name `result.names[result.probs.top1]`. -/
structure YoloOutcome where
  top1conf : ℚ
  rawLabel : String
deriving Repr, DecidableEq

/-- Oracle for the external collaborators of one request: the pre-filter
heuristic verdict, the YOLO result (`none` models `result.probs is None`),
the XGBoost model behaviour (whether `predict` raises, whether
`predict_proba` exists, the decoded label and top-class probability), the
companion/avoid tables built at startup (keys stripped and lowercased), and
whether the Supabase insert succeeds. -/
structure Env where
  prefilterIsSoil : Bool
  yoloProbs : Option YoloOutcome
  xgbRaises : Bool
  xgbSupportsProba : Bool
  xgbDecodedLabel : String
  xgbMaxProba : ℚ
  companionTable : List (String × List String)
  avoidTable : List (String × List String)
  persistOk : Bool

/-! ## Relationship lookup (main.py lines 141-148 and 420-421) -/

/-- `companion_crops.get(label.lower(), [])` / `avoid_crops.get(...)`:
lowercase the label, look it up, default to the empty list. -/
def relationship_get (table : List (String × List String)) (label : String) :
    List String :=
  (List.lookup (pyLower label) table).getD []

/-! ## Persistence (`supabase.table("soil_results").insert(...)`) -/

/-- A persistence attempt either succeeds or raises. -/
def persistStep (persistOk : Bool) : Except String Unit :=
  if persistOk then Except.ok () else Except.error "Supabase insert failed"

/-- Every insert in the handler is wrapped in `try/except` that logs and
swallows the exception, so the surrounding computation always continues. -/
def persistSwallow (persistOk : Bool) : Unit :=
  match persistStep persistOk with
  | Except.ok _ => ()
  | Except.error _ => ()

/-! ## The predict pipeline (main.py lines 237-467) -/

/-- The "No soil detected" response, returned identically on the pre-filter
reject, missing-probs / low-confidence, and not-soil-sentinel paths:
raw unconverted nutrient values, `no_crop`, empty lists, null confidence. -/
def noSoilReturn (persistOk : Bool) (req : PredictRequest) :
    Except PredictError PredictionResult :=
  let _ := persistSwallow persistOk
  Except.ok
    { soil_texture := "No soil detected"
      recommended_crop := "no_crop"
      companions := []
      avoid := []
      confidence := none
      converted_values := ⟨req.N, req.P, req.K, req.ph⟩ }

/-- The common tail of the converted paths: persist, then return the
response built from the texture, converted values and crop decision. -/
def convertedReturn (persistOk : Bool) (soil_texture : String)
    (N P K ph : ℚ) (recommended_crop : String)
    (companions avoids : List String) (crop_confidence : Option ℚ) :
    Except PredictError PredictionResult :=
  let _ := persistSwallow persistOk
  Except.ok
    { soil_texture := soil_texture
      recommended_crop := recommended_crop
      companions := companions
      avoid := avoids
      confidence := crop_confidence
      converted_values := ⟨N, P, K, ph⟩ }

/-- The `/predict` handler after successful authentication and image fetch
(main.py lines 244-467), deterministic in the collaborator oracle `env`:

1. pre-filter reject → "No soil detected" with raw values;
2. `result.probs is None` or `top1conf < SOIL_CONF_THRESHOLD` → same;
3. normalized label in the not-soil sentinel set → same;
4. otherwise `soil_texture = raw_label.replace("_Trained", "").capitalize()`
   and `convert_mgkg_to_kgha` runs (a `ValueError` → HTTP 400);
5. out-of-range converted N/P/K or raw pH → `no_crop`, null confidence;
6. otherwise the XGBoost stage: with `predict_proba`, gate on
   `max_proba < CROP_TOP_PROB_THRESHOLD` or a decoded `no_crop` label,
   reporting `max_proba` as confidence either way; without `predict_proba`,
   gate only on the decoded label and report null confidence. -/
def predict (env : Env) (req : PredictRequest) :
    Except PredictError PredictionResult :=
  if env.prefilterIsSoil = false then
    noSoilReturn env.persistOk req
  else
    match env.yoloProbs with
    | none => noSoilReturn env.persistOk req
    | some y =>
      if y.top1conf < SOIL_CONF_THRESHOLD then
        noSoilReturn env.persistOk req
      else
        let raw_label := y.rawLabel
        let normalized_label := pyReplace (pyLower (pyStrip raw_label)) " " "_"
        if normalized_label ∈ NOT_SOIL_SENTINELS then
          noSoilReturn env.persistOk req
        else
          let soil_texture := pyCapitalize (pyReplace raw_label "_Trained" "")
          match convert_mgkg_to_kgha req.N req.P req.K soil_texture with
          | none => Except.error PredictError.conversionFailed
          | some (N, P, K) =>
            if ¬ (NPK_MIN ≤ N ∧ N ≤ NPK_MAX ∧ NPK_MIN ≤ P ∧ P ≤ NPK_MAX ∧
                  NPK_MIN ≤ K ∧ K ≤ NPK_MAX) then
              convertedReturn env.persistOk soil_texture N P K req.ph
                "no_crop" [] [] none
            else if ¬ (PH_MIN ≤ req.ph ∧ req.ph ≤ PH_MAX) then
              convertedReturn env.persistOk soil_texture N P K req.ph
                "no_crop" [] [] none
            else if env.xgbRaises then
              Except.error PredictError.xgbFailed
            else if env.xgbSupportsProba then
              let max_proba := env.xgbMaxProba
              let decoded_label := env.xgbDecodedLabel
              if max_proba < CROP_TOP_PROB_THRESHOLD ∨
                  pyLower (pyStrip decoded_label) = "no_crop" then
                convertedReturn env.persistOk soil_texture N P K req.ph
                  "no_crop" [] [] (some max_proba)
              else
                convertedReturn env.persistOk soil_texture N P K req.ph
                  decoded_label
                  (relationship_get env.companionTable decoded_label)
                  (relationship_get env.avoidTable decoded_label)
                  (some max_proba)
            else
              let decoded_label := env.xgbDecodedLabel
              if pyLower (pyStrip decoded_label) = "no_crop" then
                convertedReturn env.persistOk soil_texture N P K req.ph
                  "no_crop" [] [] none
              else
                convertedReturn env.persistOk soil_texture N P K req.ph
                  decoded_label
                  (relationship_get env.companionTable decoded_label)
                  (relationship_get env.avoidTable decoded_label)
                  none

/-! ## Helper lemmas -/

theorem lookup_bd_sandy : List.lookup "sandy" bd_values = some (8/5) := by
  simp [bd_values, List.lookup]

theorem lookup_bd_loamy : List.lookup "loamy" bd_values = some (13/10) := by
  simp [bd_values, List.lookup]

theorem lookup_bd_clay : List.lookup "clay" bd_values = some (23/20) := by
  simp [bd_values, List.lookup]

theorem lookup_bd_silt : List.lookup "silt" bd_values = some (5/4) := by
  simp [bd_values, List.lookup]

theorem lookup_bd_none (k : String) (h1 : k ≠ "sandy") (h2 : k ≠ "loamy")
    (h3 : k ≠ "clay") (h4 : k ≠ "silt") : List.lookup k bd_values = none := by
  simp [bd_values, List.lookup, beq_eq_false_iff_ne.mpr h1, beq_eq_false_iff_ne.mpr h2,
    beq_eq_false_iff_ne.mpr h3, beq_eq_false_iff_ne.mpr h4]

theorem convert_eq_of_lookup (t : String) (bd N P K : ℚ)
    (h : List.lookup (pyLower t) bd_values = some bd) :
    convert_mgkg_to_kgha N P K t =
      some (N * (bd * 3), P * (bd * 3), K * (bd * 3)) := by
  simp only [convert_mgkg_to_kgha, h]
  have e : bd * 30 * 100000 / 1000000 = bd * 3 := by ring_nf
  rw [e]

theorem convert_none_of_lookup (t : String) (N P K : ℚ)
    (h : List.lookup (pyLower t) bd_values = none) :
    convert_mgkg_to_kgha N P K t = none := by
  simp only [convert_mgkg_to_kgha, h]

theorem lookup_eq_none_of_not_mem_keys {β : Type} (k : String) :
    ∀ table : List (String × β), k ∉ table.map Prod.fst → List.lookup k table = none
  | [], _ => rfl
  | (a, b) :: rest, h => by
    simp only [List.map_cons, List.mem_cons, not_or] at h
    obtain ⟨h1, h2⟩ := h
    simp only [List.lookup, beq_eq_false_iff_ne.mpr h1]
    exact lookup_eq_none_of_not_mem_keys k rest h2

/-! ## Claim theorems -/

/-- C1: for every predict request where the image model yields no
class-probability output at all (`result.probs is None`), or a top-class
confidence strictly below `SOIL_CONF_THRESHOLD`, the pipeline
short-circuits with the no-soil outcome: `soil_texture = "No soil
detected"`, `recommended_crop = "no_crop"`, empty companions and avoid
lists, null confidence, and `converted_values` equal to the raw,
unconverted N, P, K, pH of the request — regardless of which label the
model reports (`y.rawLabel` is unconstrained). -/
theorem predict_no_soil_short_circuit (env : Env) (req : PredictRequest)
    (hpre : env.prefilterIsSoil = true)
    (h : env.yoloProbs = none ∨
      ∃ y : YoloOutcome, env.yoloProbs = some y ∧ y.top1conf < SOIL_CONF_THRESHOLD) :
    predict env req = Except.ok
      { soil_texture := "No soil detected", recommended_crop := "no_crop",
        companions := [], avoid := [], confidence := none,
        converted_values := ⟨req.N, req.P, req.K, req.ph⟩ } := by
  unfold predict
  rw [hpre]
  rcases h with h | ⟨y, hy, hlt⟩
  · rw [if_neg (by simp), h]
    rfl
  · rw [if_neg (by simp), hy]
    simp only
    rw [if_pos hlt]
    rfl

/-- C1 witness: concrete low-confidence run (confidence 3/10 < 1/2),
label "Clay_Trained" ignored. -/
theorem predict_no_soil_short_circuit_witness :
    predict
      { prefilterIsSoil := true, yoloProbs := some ⟨3/10, "Clay_Trained"⟩,
        xgbRaises := false, xgbSupportsProba := true, xgbDecodedLabel := "rice",
        xgbMaxProba := 9/10, companionTable := [], avoidTable := [],
        persistOk := true }
      { imageUrl := "http://x/a.jpg", image_name := none, N := 17, P := 20,
        K := 44, ph := 49/10, pot_name := "pot1" } = Except.ok
      { soil_texture := "No soil detected", recommended_crop := "no_crop",
        companions := [], avoid := [], confidence := none,
        converted_values := ⟨17, 20, 44, 49/10⟩ } :=
  predict_no_soil_short_circuit _ _ rfl
    (Or.inr ⟨⟨3/10, "Clay_Trained"⟩, rfl, by norm_num [SOIL_CONF_THRESHOLD]⟩)

/-- C2: for each of the four known soil textures (case-insensitive) the
converter multiplies each nutrient by `bulk_density * 30 * 1e5 / 1e6 =
bulk_density * 3`, with densities Sandy 8/5, Loamy 13/10, Clay 23/20, Silt
5/4; the scaling is monotone in each input; and in particular Clay with
N=17, P=20, K=44 yields N = 1173/20 = 58.65, P = 69, K = 759/5 = 151.8. -/
theorem convert_known_textures_scale_monotone :
    (∀ (t : String) (N P K : ℚ), 0 ≤ N → 0 ≤ P → 0 ≤ K →
      pyLower t ∈ ["sandy", "loamy", "clay", "silt"] →
      ∃ bd : ℚ, List.lookup (pyLower t) bd_values = some bd ∧ 0 < bd ∧
        (pyLower t = "sandy" → bd = 8/5) ∧ (pyLower t = "loamy" → bd = 13/10) ∧
        (pyLower t = "clay" → bd = 23/20) ∧ (pyLower t = "silt" → bd = 5/4) ∧
        convert_mgkg_to_kgha N P K t =
          some (N * (bd * 3), P * (bd * 3), K * (bd * 3)) ∧
        (∀ N' P' K' : ℚ, N ≤ N' → P ≤ P' → K ≤ K' →
          N * (bd * 3) ≤ N' * (bd * 3) ∧ P * (bd * 3) ≤ P' * (bd * 3) ∧
          K * (bd * 3) ≤ K' * (bd * 3))) ∧
    convert_mgkg_to_kgha 17 20 44 "Clay" = some (1173/20, 69, 759/5) := by
  constructor
  · intro t N P K _ _ _ hmem
    simp only [List.mem_cons, List.not_mem_nil, or_false] at hmem
    have main : ∀ bd : ℚ, 0 < bd → List.lookup (pyLower t) bd_values = some bd →
        convert_mgkg_to_kgha N P K t =
          some (N * (bd * 3), P * (bd * 3), K * (bd * 3)) ∧
        (∀ N' P' K' : ℚ, N ≤ N' → P ≤ P' → K ≤ K' →
          N * (bd * 3) ≤ N' * (bd * 3) ∧ P * (bd * 3) ≤ P' * (bd * 3) ∧
          K * (bd * 3) ≤ K' * (bd * 3)) := by
      intro bd hbd hl
      refine ⟨convert_eq_of_lookup t bd N P K hl, ?_⟩
      intro N' P' K' hN hP hK
      have h3 : (0:ℚ) ≤ bd * 3 := by positivity
      exact ⟨mul_le_mul_of_nonneg_right hN h3, mul_le_mul_of_nonneg_right hP h3,
        mul_le_mul_of_nonneg_right hK h3⟩
    rcases hmem with h | h | h | h
    · refine ⟨8/5, by rw [h]; exact lookup_bd_sandy, by norm_num, ?_⟩
      refine ⟨fun _ => rfl, fun hx => absurd (h ▸ hx) (by decide),
        fun hx => absurd (h ▸ hx) (by decide), fun hx => absurd (h ▸ hx) (by decide), ?_⟩
      exact (main (8/5) (by norm_num) (by rw [h]; exact lookup_bd_sandy))
    · refine ⟨13/10, by rw [h]; exact lookup_bd_loamy, by norm_num, ?_⟩
      refine ⟨fun hx => absurd (h ▸ hx) (by decide), fun _ => rfl,
        fun hx => absurd (h ▸ hx) (by decide), fun hx => absurd (h ▸ hx) (by decide), ?_⟩
      exact (main (13/10) (by norm_num) (by rw [h]; exact lookup_bd_loamy))
    · refine ⟨23/20, by rw [h]; exact lookup_bd_clay, by norm_num, ?_⟩
      refine ⟨fun hx => absurd (h ▸ hx) (by decide), fun hx => absurd (h ▸ hx) (by decide),
        fun _ => rfl, fun hx => absurd (h ▸ hx) (by decide), ?_⟩
      exact (main (23/20) (by norm_num) (by rw [h]; exact lookup_bd_clay))
    · refine ⟨5/4, by rw [h]; exact lookup_bd_silt, by norm_num, ?_⟩
      refine ⟨fun hx => absurd (h ▸ hx) (by decide), fun hx => absurd (h ▸ hx) (by decide),
        fun hx => absurd (h ▸ hx) (by decide), fun _ => rfl, ?_⟩
      exact (main (5/4) (by norm_num) (by rw [h]; exact lookup_bd_silt))
  · have h : List.lookup (pyLower "Clay") bd_values = some (23/20) := by
      rw [show pyLower "Clay" = "clay" from by decide]; exact lookup_bd_clay
    rw [convert_eq_of_lookup "Clay" (23/20) 17 20 44 h]
    norm_num

/-- C2 witness: the quantified part instantiated at texture "Clay",
N=17, P=20, K=44, together with the concrete scenario-A equation. -/
theorem convert_known_textures_scale_monotone_witness :
    (∃ bd : ℚ, List.lookup (pyLower "Clay") bd_values = some bd ∧ 0 < bd ∧
      (pyLower "Clay" = "sandy" → bd = 8/5) ∧ (pyLower "Clay" = "loamy" → bd = 13/10) ∧
      (pyLower "Clay" = "clay" → bd = 23/20) ∧ (pyLower "Clay" = "silt" → bd = 5/4) ∧
      convert_mgkg_to_kgha 17 20 44 "Clay" =
        some (17 * (bd * 3), 20 * (bd * 3), 44 * (bd * 3)) ∧
      (∀ N' P' K' : ℚ, 17 ≤ N' → 20 ≤ P' → 44 ≤ K' →
        17 * (bd * 3) ≤ N' * (bd * 3) ∧ 20 * (bd * 3) ≤ P' * (bd * 3) ∧
        44 * (bd * 3) ≤ K' * (bd * 3))) ∧
    convert_mgkg_to_kgha 17 20 44 "Clay" = some (1173/20, 69, 759/5) :=
  ⟨convert_known_textures_scale_monotone.1 "Clay" 17 20 44 (by norm_num)
    (by norm_num) (by norm_num) (by decide),
   convert_known_textures_scale_monotone.2⟩

/-- C6: the converter fails (raises `ValueError`, modelled as `none`) for
every texture whose lowercasing is not one of sandy/loamy/clay/silt —
including the "No soil detected" sentinel — and succeeds for every texture
whose lowercasing is one of those four strings. -/
theorem convert_invalid_soil_type :
    (∀ (t : String) (N P K : ℚ), pyLower t ∉ ["sandy", "loamy", "clay", "silt"] →
      convert_mgkg_to_kgha N P K t = none) ∧
    (∀ (t : String) (N P K : ℚ), pyLower t ∈ ["sandy", "loamy", "clay", "silt"] →
      ∃ r, convert_mgkg_to_kgha N P K t = some r) ∧
    (∀ N P K : ℚ, convert_mgkg_to_kgha N P K "No soil detected" = none) := by
  have hnone : ∀ (t : String) (N P K : ℚ), pyLower t ∉ ["sandy", "loamy", "clay", "silt"] →
      convert_mgkg_to_kgha N P K t = none := by
    intro t N P K hmem
    simp only [List.mem_cons, List.not_mem_nil, or_false, not_or] at hmem
    obtain ⟨h1, h2, h3, h4⟩ := hmem
    exact convert_none_of_lookup t N P K (lookup_bd_none _ h1 h2 h3 h4)
  refine ⟨hnone, ?_, ?_⟩
  · intro t N P K hmem
    simp only [List.mem_cons, List.not_mem_nil, or_false] at hmem
    rcases hmem with h | h | h | h
    · exact ⟨_, convert_eq_of_lookup t (8/5) N P K (by rw [h]; exact lookup_bd_sandy)⟩
    · exact ⟨_, convert_eq_of_lookup t (13/10) N P K (by rw [h]; exact lookup_bd_loamy)⟩
    · exact ⟨_, convert_eq_of_lookup t (23/20) N P K (by rw [h]; exact lookup_bd_clay)⟩
    · exact ⟨_, convert_eq_of_lookup t (5/4) N P K (by rw [h]; exact lookup_bd_silt)⟩
  · intro N P K
    exact hnone _ N P K (by decide)

/-- C6 witness: the sentinel "No soil detected" fails and "SANDY"
(case-insensitive match) succeeds, at concrete inputs. -/
theorem convert_invalid_soil_type_witness :
    convert_mgkg_to_kgha 1 2 3 "No soil detected" = none ∧
    (∃ r, convert_mgkg_to_kgha 1 2 3 "SANDY" = some r) :=
  ⟨convert_invalid_soil_type.2.2 1 2 3,
   convert_invalid_soil_type.2.1 "SANDY" 1 2 3 (by decide)⟩

/-- C7: the relationship lookup is case-insensitive (it depends only on the
lowercased label) and total: a label whose lowercasing is absent from the
table's keys yields the empty list — never an error — and a present label
yields the table's stored list. (The pipeline calls it once on the
companion table and once on the avoid table, producing the pair.) -/
theorem relationship_get_total_case_insensitive :
    (∀ (table : List (String × List String)) (l1 l2 : String),
      pyLower l1 = pyLower l2 →
      relationship_get table l1 = relationship_get table l2) ∧
    (∀ (table : List (String × List String)) (label : String),
      pyLower label ∉ table.map Prod.fst → relationship_get table label = []) ∧
    (∀ (table : List (String × List String)) (label : String) (cs : List String),
      List.lookup (pyLower label) table = some cs → relationship_get table label = cs) := by
  refine ⟨?_, ?_, ?_⟩
  · intro table l1 l2 h
    simp only [relationship_get, h]
  · intro table label h
    simp only [relationship_get, lookup_eq_none_of_not_mem_keys _ table h, Option.getD_none]
  · intro table label cs h
    simp only [relationship_get, h, Option.getD_some]

/-- C7 witness: "Rice" and "rIcE" agree on a concrete table, an unknown
crop yields `[]`, and a present key yields its stored list. -/
theorem relationship_get_total_case_insensitive_witness :
    relationship_get [("rice", ["beans"])] "Rice" =
      relationship_get [("rice", ["beans"])] "rIcE" ∧
    relationship_get [("rice", ["beans"])] "durian" = [] ∧
    relationship_get [("rice", ["beans"])] "Rice" = ["beans"] :=
  ⟨relationship_get_total_case_insensitive.1 _ "Rice" "rIcE" (by decide),
   relationship_get_total_case_insensitive.2.1 _ "durian" (by decide),
   relationship_get_total_case_insensitive.2.2 _ "Rice" ["beans"]
     (by simp [show pyLower "Rice" = "rice" from by decide, List.lookup])⟩

/-- C3 amended: with the crop model supporting `predict_proba`, whenever the
top-class probability is strictly below `CROP_TOP_PROB_THRESHOLD`, or the
decoded label (stripped, lowercased) is the `no_crop` sentinel, the pipeline
returns `recommended_crop = "no_crop"` with empty companion/avoid lists; the
gate reads a single module-level constant, `CROP_TOP_PROB_THRESHOLD`, whose
value is 7/10 = 0.7 (not the 0.5 the claim states; the 0.5 constant
`CROP_CONF_THRESHOLD` is legacy and unused by the gate). -/
theorem crop_gate_below_threshold_no_crop (env : Env) (req : PredictRequest)
    (y : YoloOutcome) (N P K : ℚ)
    (hpre : env.prefilterIsSoil = true)
    (hy : env.yoloProbs = some y)
    (hconf : ¬ y.top1conf < SOIL_CONF_THRESHOLD)
    (hsent : pyReplace (pyLower (pyStrip y.rawLabel)) " " "_" ∉ NOT_SOIL_SENTINELS)
    (hconv : convert_mgkg_to_kgha req.N req.P req.K
      (pyCapitalize (pyReplace y.rawLabel "_Trained" "")) = some (N, P, K))
    (hA : NPK_MIN ≤ N ∧ N ≤ NPK_MAX ∧ NPK_MIN ≤ P ∧ P ≤ NPK_MAX ∧
          NPK_MIN ≤ K ∧ K ≤ NPK_MAX)
    (hB : PH_MIN ≤ req.ph ∧ req.ph ≤ PH_MAX)
    (hraise : env.xgbRaises = false)
    (hproba : env.xgbSupportsProba = true)
    (hgate : env.xgbMaxProba < CROP_TOP_PROB_THRESHOLD ∨
             pyLower (pyStrip env.xgbDecodedLabel) = "no_crop") :
    predict env req = Except.ok
      { soil_texture := pyCapitalize (pyReplace y.rawLabel "_Trained" ""),
        recommended_crop := "no_crop", companions := [], avoid := [],
        confidence := some env.xgbMaxProba,
        converted_values := ⟨N, P, K, req.ph⟩ } ∧
    CROP_TOP_PROB_THRESHOLD = 7/10 := by
  refine ⟨?_, rfl⟩
  unfold predict
  rw [hpre, if_neg (by simp), hy]
  simp only
  rw [if_neg hconf, if_neg hsent, hconv]
  simp only
  rw [if_neg (not_not_intro hA), if_neg (not_not_intro hB), hraise,
      if_neg (by simp), hproba, if_pos rfl]
  rw [if_pos hgate]
  rfl

/-- C3 witness: concrete run reaching the gate with top probability
1/10 < 7/10 and decoded label "rice". -/
theorem crop_gate_below_threshold_no_crop_witness :
    predict
      { prefilterIsSoil := true, yoloProbs := some ⟨9/10, "Clay_Trained"⟩,
        xgbRaises := false, xgbSupportsProba := true, xgbDecodedLabel := "rice",
        xgbMaxProba := 1/10, companionTable := [("rice", ["beans"])],
        avoidTable := [("rice", ["onion"])], persistOk := true }
      { imageUrl := "u", image_name := none, N := 17, P := 20, K := 44,
        ph := 49/10, pot_name := "p" } = Except.ok
      { soil_texture := "Clay", recommended_crop := "no_crop",
        companions := [], avoid := [], confidence := some (1/10),
        converted_values := ⟨1173/20, 69, 759/5, 49/10⟩ } ∧
    CROP_TOP_PROB_THRESHOLD = 7/10 :=
  crop_gate_below_threshold_no_crop _ _ ⟨9/10, "Clay_Trained"⟩ (1173/20) 69 (759/5)
    rfl rfl
    (by norm_num [SOIL_CONF_THRESHOLD] : ¬ (9/10 : ℚ) < SOIL_CONF_THRESHOLD)
    (by decide)
    (by
      rw [show pyCapitalize (pyReplace "Clay_Trained" "_Trained" "") = "Clay" from by decide,
        convert_eq_of_lookup "Clay" (23/20) 17 20 44
          (by rw [show pyLower "Clay" = "clay" from by decide]; exact lookup_bd_clay)]
      norm_num)
    (by norm_num [NPK_MIN, NPK_MAX]) (by norm_num [PH_MIN, PH_MAX]) rfl rfl
    (Or.inl (by norm_num [CROP_TOP_PROB_THRESHOLD]))

/-- C3 counterexample: the gating threshold is the single constant
`CROP_TOP_PROB_THRESHOLD = 0.7`, not 0.5 as the claim states: a
well-formed top probability of 0.6 — at or above the claimed 0.5
default — still yields `no_crop`. -/
theorem crop_threshold_is_07_not_05 :
    CROP_TOP_PROB_THRESHOLD = 7/10 ∧ ¬ CROP_TOP_PROB_THRESHOLD = 5/10 ∧
    CROP_CONF_THRESHOLD = 5/10 ∧
    predict
      { prefilterIsSoil := true, yoloProbs := some ⟨9/10, "Clay_Trained"⟩,
        xgbRaises := false, xgbSupportsProba := true, xgbDecodedLabel := "rice",
        xgbMaxProba := 6/10, companionTable := [("rice", ["beans"])],
        avoidTable := [("rice", ["onion"])], persistOk := true }
      { imageUrl := "u", image_name := none, N := 17, P := 20, K := 44,
        ph := 49/10, pot_name := "p" } = Except.ok
      { soil_texture := "Clay", recommended_crop := "no_crop",
        companions := [], avoid := [], confidence := some (6/10),
        converted_values := ⟨1173/20, 69, 759/5, 49/10⟩ } := by
  refine ⟨rfl, by norm_num [CROP_TOP_PROB_THRESHOLD], rfl, ?_⟩
  have hn : pyReplace (pyLower (pyStrip "Clay_Trained")) " " "_" = "clay_trained" := by
    decide
  have hs : pyCapitalize (pyReplace "Clay_Trained" "_Trained" "") = "Clay" := by decide
  have hmem : "clay_trained" ∉ NOT_SOIL_SENTINELS := by decide
  have hconv : convert_mgkg_to_kgha 17 20 44 "Clay" = some (1173/20, 69, 759/5) := by
    have h : List.lookup (pyLower "Clay") bd_values = some (23/20) := by
      rw [show pyLower "Clay" = "clay" from by decide]; exact lookup_bd_clay
    rw [convert_eq_of_lookup "Clay" (23/20) 17 20 44 h]; norm_num
  simp only [predict, hn, hs, hconv]
  rw [if_neg (by norm_num), if_neg (by norm_num [SOIL_CONF_THRESHOLD]), if_neg hmem]
  rw [if_neg (by norm_num [NPK_MIN, NPK_MAX]), if_neg (by norm_num [PH_MIN, PH_MAX])]
  rw [if_neg (by norm_num), if_pos trivial]
  rw [if_pos (Or.inl (by norm_num [CROP_TOP_PROB_THRESHOLD]))]
  rfl

/-- C4: once the pipeline reaches the range-check stage, if any converted
nutrient lies outside [NPK_MIN, NPK_MAX] = [0, 500] or the raw pH lies
outside [PH_MIN, PH_MAX] = [3.5, 9.5], the response is `no_crop` with empty
lists, null confidence, and the computed (possibly out-of-range) converted
values with the raw pH — and the crop-classifier oracle is never consulted:
the result is unchanged under any values of the XGBoost oracle fields. -/
theorem out_of_range_no_crop (env : Env) (req : PredictRequest) (y : YoloOutcome)
    (N P K : ℚ)
    (hpre : env.prefilterIsSoil = true)
    (hy : env.yoloProbs = some y)
    (hconf : ¬ y.top1conf < SOIL_CONF_THRESHOLD)
    (hsent : pyReplace (pyLower (pyStrip y.rawLabel)) " " "_" ∉ NOT_SOIL_SENTINELS)
    (hconv : convert_mgkg_to_kgha req.N req.P req.K
      (pyCapitalize (pyReplace y.rawLabel "_Trained" "")) = some (N, P, K))
    (hrange : ¬ (NPK_MIN ≤ N ∧ N ≤ NPK_MAX ∧ NPK_MIN ≤ P ∧ P ≤ NPK_MAX ∧
                 NPK_MIN ≤ K ∧ K ≤ NPK_MAX) ∨
              ¬ (PH_MIN ≤ req.ph ∧ req.ph ≤ PH_MAX)) :
    predict env req = Except.ok
      { soil_texture := pyCapitalize (pyReplace y.rawLabel "_Trained" ""),
        recommended_crop := "no_crop", companions := [], avoid := [],
        confidence := none, converted_values := ⟨N, P, K, req.ph⟩ } ∧
    (∀ (b c : Bool) (d : String) (m : ℚ),
      predict { env with xgbRaises := b, xgbSupportsProba := c,
                         xgbDecodedLabel := d, xgbMaxProba := m } req =
        predict env req) := by
  have main : ∀ e : Env, e.prefilterIsSoil = true → e.yoloProbs = some y →
      predict e req = Except.ok
        { soil_texture := pyCapitalize (pyReplace y.rawLabel "_Trained" ""),
          recommended_crop := "no_crop", companions := [], avoid := [],
          confidence := none, converted_values := ⟨N, P, K, req.ph⟩ } := by
    intro e hpre' hy'
    unfold predict
    rw [hpre', if_neg (by simp), hy']
    simp only
    rw [if_neg hconf, if_neg hsent, hconv]
    simp only
    by_cases hA : (NPK_MIN ≤ N ∧ N ≤ NPK_MAX ∧ NPK_MIN ≤ P ∧ P ≤ NPK_MAX ∧
                   NPK_MIN ≤ K ∧ K ≤ NPK_MAX)
    · rcases hrange with hB | hB
      · exact absurd hA hB
      · rw [if_neg (not_not_intro hA), if_pos hB]
        rfl
    · rw [if_pos hA]
      rfl
  refine ⟨main env hpre hy, ?_⟩
  intro b c d m
  rw [main env hpre hy]
  exact main _ hpre hy

/-- C4 witness: scenario C — raw N = 200 on Clay converts to 690 kg/ha,
outside [0, 500], so the response is `no_crop` with null confidence, for
every behaviour of the crop-model oracle. -/
theorem out_of_range_no_crop_witness :
    predict
      { prefilterIsSoil := true, yoloProbs := some ⟨9/10, "Clay_Trained"⟩,
        xgbRaises := false, xgbSupportsProba := true, xgbDecodedLabel := "rice",
        xgbMaxProba := 9/10, companionTable := [("rice", ["beans"])],
        avoidTable := [("rice", ["onion"])], persistOk := true }
      { imageUrl := "u", image_name := none, N := 200, P := 20, K := 44,
        ph := 49/10, pot_name := "p" } = Except.ok
      { soil_texture := "Clay", recommended_crop := "no_crop",
        companions := [], avoid := [], confidence := none,
        converted_values := ⟨690, 69, 759/5, 49/10⟩ } ∧
    (∀ (b c : Bool) (d : String) (m : ℚ),
      predict
        { prefilterIsSoil := true, yoloProbs := some ⟨9/10, "Clay_Trained"⟩,
          xgbRaises := b, xgbSupportsProba := c, xgbDecodedLabel := d,
          xgbMaxProba := m, companionTable := [("rice", ["beans"])],
          avoidTable := [("rice", ["onion"])], persistOk := true }
        { imageUrl := "u", image_name := none, N := 200, P := 20, K := 44,
          ph := 49/10, pot_name := "p" } =
      predict
        { prefilterIsSoil := true, yoloProbs := some ⟨9/10, "Clay_Trained"⟩,
          xgbRaises := false, xgbSupportsProba := true, xgbDecodedLabel := "rice",
          xgbMaxProba := 9/10, companionTable := [("rice", ["beans"])],
          avoidTable := [("rice", ["onion"])], persistOk := true }
        { imageUrl := "u", image_name := none, N := 200, P := 20, K := 44,
          ph := 49/10, pot_name := "p" }) :=
  out_of_range_no_crop _ _ ⟨9/10, "Clay_Trained"⟩ 690 69 (759/5) rfl rfl
    (by norm_num [SOIL_CONF_THRESHOLD] : ¬ (9/10 : ℚ) < SOIL_CONF_THRESHOLD)
    (by decide)
    (by
      rw [show pyCapitalize (pyReplace "Clay_Trained" "_Trained" "") = "Clay" from by decide,
        convert_eq_of_lookup "Clay" (23/20) 200 20 44
          (by rw [show pyLower "Clay" = "clay" from by decide]; exact lookup_bd_clay)]
      norm_num)
    (Or.inl (by norm_num [NPK_MIN, NPK_MAX]))

/-- C5 counterexample: there is no lookup table, substring fallback, or
Loamy default — the soil texture is just `raw_label.replace("_Trained",
"").capitalize()`, so the YOLO label "Gravel_Trained" yields texture
"Gravel", outside {Sandy, Loamy, Clay, Silt}, and the pipeline then fails
with the conversion error instead of producing a known texture. -/
theorem soil_texture_no_lookup_table :
    pyCapitalize (pyReplace "Gravel_Trained" "_Trained" "") = "Gravel" ∧
    "Gravel" ∉ ["Sandy", "Loamy", "Clay", "Silt"] ∧
    predict
      { prefilterIsSoil := true, yoloProbs := some ⟨9/10, "Gravel_Trained"⟩,
        xgbRaises := false, xgbSupportsProba := true, xgbDecodedLabel := "rice",
        xgbMaxProba := 9/10, companionTable := [], avoidTable := [],
        persistOk := true }
      { imageUrl := "u", image_name := none, N := 17, P := 20, K := 44,
        ph := 49/10, pot_name := "p" } =
      Except.error PredictError.conversionFailed := by
  refine ⟨by decide, by decide, ?_⟩
  have hn : pyReplace (pyLower (pyStrip "Gravel_Trained")) " " "_" = "gravel_trained" := by
    decide
  have hs : pyCapitalize (pyReplace "Gravel_Trained" "_Trained" "") = "Gravel" := by decide
  have hmem : "gravel_trained" ∉ NOT_SOIL_SENTINELS := by decide
  have hconv : convert_mgkg_to_kgha 17 20 44 "Gravel" = none := by
    apply convert_none_of_lookup
    rw [show pyLower "Gravel" = "gravel" from by decide]
    exact lookup_bd_none _ (by decide) (by decide) (by decide) (by decide)
  simp only [predict, hn, hs, hconv]
  rw [if_neg (by norm_num), if_neg (by norm_num [SOIL_CONF_THRESHOLD]), if_neg hmem]

/-- C5 amended: for every confidently classified image whose normalized
label is not a not-soil sentinel, the texture the pipeline uses is exactly
`raw_label.replace("_Trained", "").capitalize()`; when that string's
lowercasing is a bulk-density key the run carries it as `soil_texture`
(or fails in the crop model), and otherwise the conversion fails — the
texture is NOT forced into {Sandy, Loamy, Clay, Silt}. -/
theorem soil_texture_strip_capitalize (env : Env) (req : PredictRequest)
    (y : YoloOutcome)
    (hpre : env.prefilterIsSoil = true)
    (hy : env.yoloProbs = some y)
    (hconf : ¬ y.top1conf < SOIL_CONF_THRESHOLD)
    (hsent : pyReplace (pyLower (pyStrip y.rawLabel)) " " "_" ∉ NOT_SOIL_SENTINELS) :
    (List.lookup (pyLower (pyCapitalize (pyReplace y.rawLabel "_Trained" "")))
        bd_values = none ∧
      predict env req = Except.error PredictError.conversionFailed) ∨
    predict env req = Except.error PredictError.xgbFailed ∨
    (∃ res, predict env req = Except.ok res ∧
      res.soil_texture = pyCapitalize (pyReplace y.rawLabel "_Trained" "")) := by
  rcases h : List.lookup (pyLower (pyCapitalize (pyReplace y.rawLabel "_Trained" "")))
      bd_values with _ | bd
  · refine Or.inl ⟨rfl, ?_⟩
    unfold predict
    rw [hpre, if_neg (by simp), hy]
    simp only
    rw [if_neg hconf, if_neg hsent,
        convert_none_of_lookup _ req.N req.P req.K h]
  · have hc := convert_eq_of_lookup _ bd req.N req.P req.K h
    unfold predict
    rw [hpre, if_neg (by simp), hy]
    simp only
    rw [if_neg hconf, if_neg hsent, hc]
    simp only
    repeat' split
    all_goals first
      | exact Or.inr (Or.inl rfl)
      | exact Or.inr (Or.inr ⟨_, rfl, rfl⟩)

/-- C5 witness: the amended statement at the label "Clay_Trained", where the
stripped-and-capitalized texture "Clay" is a known category and the run
completes with that texture. -/
theorem soil_texture_strip_capitalize_witness :
    (List.lookup (pyLower (pyCapitalize (pyReplace
        (YoloOutcome.rawLabel ⟨9/10, "Clay_Trained"⟩) "_Trained" ""))) bd_values = none ∧
      predict
        { prefilterIsSoil := true, yoloProbs := some ⟨9/10, "Clay_Trained"⟩,
          xgbRaises := false, xgbSupportsProba := true, xgbDecodedLabel := "rice",
          xgbMaxProba := 9/10, companionTable := [], avoidTable := [],
          persistOk := true }
        { imageUrl := "u", image_name := none, N := 17, P := 20, K := 44,
          ph := 49/10, pot_name := "p" } =
        Except.error PredictError.conversionFailed) ∨
    predict
      { prefilterIsSoil := true, yoloProbs := some ⟨9/10, "Clay_Trained"⟩,
        xgbRaises := false, xgbSupportsProba := true, xgbDecodedLabel := "rice",
        xgbMaxProba := 9/10, companionTable := [], avoidTable := [],
        persistOk := true }
      { imageUrl := "u", image_name := none, N := 17, P := 20, K := 44,
        ph := 49/10, pot_name := "p" } =
      Except.error PredictError.xgbFailed ∨
    (∃ res, predict
        { prefilterIsSoil := true, yoloProbs := some ⟨9/10, "Clay_Trained"⟩,
          xgbRaises := false, xgbSupportsProba := true, xgbDecodedLabel := "rice",
          xgbMaxProba := 9/10, companionTable := [], avoidTable := [],
          persistOk := true }
        { imageUrl := "u", image_name := none, N := 17, P := 20, K := 44,
          ph := 49/10, pot_name := "p" } = Except.ok res ∧
      res.soil_texture = pyCapitalize (pyReplace
        (YoloOutcome.rawLabel ⟨9/10, "Clay_Trained"⟩) "_Trained" "")) :=
  soil_texture_strip_capitalize _ _ ⟨9/10, "Clay_Trained"⟩ rfl rfl
    (by norm_num [SOIL_CONF_THRESHOLD] : ¬ (9/10 : ℚ) < SOIL_CONF_THRESHOLD)
    (by decide)

/-- C8: a persistence-sink failure is recovered locally and never
propagated: the pipeline's result is identical whatever the sink does
(first conjunct), even though a failing sink really does raise
(second conjunct) — the `try/except` swallows it (third conjunct). -/
theorem persistence_failure_transparent :
    (∀ (env : Env) (req : PredictRequest) (b : Bool),
      predict { env with persistOk := b } req = predict { env with persistOk := true } req) ∧
    persistStep false = Except.error "Supabase insert failed" ∧
    persistSwallow false = persistSwallow true := by
  refine ⟨?_, rfl, rfl⟩
  intro env req b
  simp only [predict, noSoilReturn, convertedReturn]

/-- Exhaustive characterization of successful `predict` runs: every `ok`
result arose on exactly one of the pipeline's exit paths, with the branch
conditions and the exact response of that path. Shared by the invariant
and confidence-reporting theorems below. -/
theorem predict_ok_characterization (env : Env) (req : PredictRequest)
    (res : PredictionResult) (hok : predict env req = Except.ok res) :
    ((env.prefilterIsSoil = false ∨ env.yoloProbs = none ∨
      (∃ y : YoloOutcome, env.yoloProbs = some y ∧
        (y.top1conf < SOIL_CONF_THRESHOLD ∨
         pyReplace (pyLower (pyStrip y.rawLabel)) " " "_" ∈ NOT_SOIL_SENTINELS))) ∧
      res = { soil_texture := "No soil detected", recommended_crop := "no_crop",
              companions := [], avoid := [], confidence := none,
              converted_values := ⟨req.N, req.P, req.K, req.ph⟩ }) ∨
    (∃ (y : YoloOutcome) (N P K : ℚ),
      env.prefilterIsSoil = true ∧ env.yoloProbs = some y ∧
      ¬ y.top1conf < SOIL_CONF_THRESHOLD ∧
      pyReplace (pyLower (pyStrip y.rawLabel)) " " "_" ∉ NOT_SOIL_SENTINELS ∧
      convert_mgkg_to_kgha req.N req.P req.K
        (pyCapitalize (pyReplace y.rawLabel "_Trained" "")) = some (N, P, K) ∧
      (((¬ (NPK_MIN ≤ N ∧ N ≤ NPK_MAX ∧ NPK_MIN ≤ P ∧ P ≤ NPK_MAX ∧
            NPK_MIN ≤ K ∧ K ≤ NPK_MAX) ∨
         ¬ (PH_MIN ≤ req.ph ∧ req.ph ≤ PH_MAX)) ∧
        res = { soil_texture := pyCapitalize (pyReplace y.rawLabel "_Trained" ""),
                recommended_crop := "no_crop", companions := [], avoid := [],
                confidence := none, converted_values := ⟨N, P, K, req.ph⟩ }) ∨
       ((NPK_MIN ≤ N ∧ N ≤ NPK_MAX ∧ NPK_MIN ≤ P ∧ P ≤ NPK_MAX ∧
         NPK_MIN ≤ K ∧ K ≤ NPK_MAX) ∧
        (PH_MIN ≤ req.ph ∧ req.ph ≤ PH_MAX) ∧
        env.xgbRaises = false ∧
        ((env.xgbSupportsProba = true ∧
          (((env.xgbMaxProba < CROP_TOP_PROB_THRESHOLD ∨
             pyLower (pyStrip env.xgbDecodedLabel) = "no_crop") ∧
            res = { soil_texture := pyCapitalize (pyReplace y.rawLabel "_Trained" ""),
                    recommended_crop := "no_crop", companions := [], avoid := [],
                    confidence := some env.xgbMaxProba,
                    converted_values := ⟨N, P, K, req.ph⟩ }) ∨
           (¬ (env.xgbMaxProba < CROP_TOP_PROB_THRESHOLD ∨
               pyLower (pyStrip env.xgbDecodedLabel) = "no_crop") ∧
            res = { soil_texture := pyCapitalize (pyReplace y.rawLabel "_Trained" ""),
                    recommended_crop := env.xgbDecodedLabel,
                    companions := relationship_get env.companionTable env.xgbDecodedLabel,
                    avoid := relationship_get env.avoidTable env.xgbDecodedLabel,
                    confidence := some env.xgbMaxProba,
                    converted_values := ⟨N, P, K, req.ph⟩ }))) ∨
         (env.xgbSupportsProba = false ∧
          ((pyLower (pyStrip env.xgbDecodedLabel) = "no_crop" ∧
            res = { soil_texture := pyCapitalize (pyReplace y.rawLabel "_Trained" ""),
                    recommended_crop := "no_crop", companions := [], avoid := [],
                    confidence := none, converted_values := ⟨N, P, K, req.ph⟩ }) ∨
           (¬ pyLower (pyStrip env.xgbDecodedLabel) = "no_crop" ∧
            res = { soil_texture := pyCapitalize (pyReplace y.rawLabel "_Trained" ""),
                    recommended_crop := env.xgbDecodedLabel,
                    companions := relationship_get env.companionTable env.xgbDecodedLabel,
                    avoid := relationship_get env.avoidTable env.xgbDecodedLabel,
                    confidence := none,
                    converted_values := ⟨N, P, K, req.ph⟩ }))))))) := by
  unfold predict at hok
  by_cases hpre : env.prefilterIsSoil = false
  · rw [if_pos hpre] at hok
    simp only [noSoilReturn, Except.ok.injEq] at hok
    exact Or.inl ⟨Or.inl hpre, hok.symm⟩
  · rw [if_neg hpre] at hok
    rcases hyp : env.yoloProbs with _ | y
    · rw [hyp] at hok
      simp only [noSoilReturn, Except.ok.injEq] at hok
      exact Or.inl ⟨Or.inr (Or.inl rfl), hok.symm⟩
    · rw [hyp] at hok
      simp only at hok
      by_cases hconf : y.top1conf < SOIL_CONF_THRESHOLD
      · rw [if_pos hconf] at hok
        simp only [noSoilReturn, Except.ok.injEq] at hok
        exact Or.inl ⟨Or.inr (Or.inr ⟨y, rfl, Or.inl hconf⟩), hok.symm⟩
      · rw [if_neg hconf] at hok
        by_cases hsent : pyReplace (pyLower (pyStrip y.rawLabel)) " " "_" ∈ NOT_SOIL_SENTINELS
        · rw [if_pos hsent] at hok
          simp only [noSoilReturn, Except.ok.injEq] at hok
          exact Or.inl ⟨Or.inr (Or.inr ⟨y, rfl, Or.inr hsent⟩), hok.symm⟩
        · rw [if_neg hsent] at hok
          rcases hcv : convert_mgkg_to_kgha req.N req.P req.K
              (pyCapitalize (pyReplace y.rawLabel "_Trained" "")) with _ | NPK
          · rw [hcv] at hok
            exact absurd hok (by simp)
          · obtain ⟨N, P, K⟩ := NPK
            rw [hcv] at hok
            simp only at hok
            refine Or.inr ⟨y, N, P, K, by simpa using hpre, rfl, hconf, hsent, hcv, ?_⟩
            by_cases hA : NPK_MIN ≤ N ∧ N ≤ NPK_MAX ∧ NPK_MIN ≤ P ∧ P ≤ NPK_MAX ∧
                NPK_MIN ≤ K ∧ K ≤ NPK_MAX
            · rw [if_neg (not_not_intro hA)] at hok
              by_cases hB : PH_MIN ≤ req.ph ∧ req.ph ≤ PH_MAX
              · rw [if_neg (not_not_intro hB)] at hok
                cases hr : env.xgbRaises with
                | true =>
                  rw [hr] at hok
                  rw [if_pos rfl] at hok
                  exact absurd hok (by simp)
                | false =>
                  rw [hr] at hok
                  rw [if_neg (by simp)] at hok
                  refine Or.inr ⟨hA, hB, rfl, ?_⟩
                  cases hsp : env.xgbSupportsProba with
                  | true =>
                    rw [hsp, if_pos rfl] at hok
                    refine Or.inl ⟨rfl, ?_⟩
                    by_cases hgate : env.xgbMaxProba < CROP_TOP_PROB_THRESHOLD ∨
                        pyLower (pyStrip env.xgbDecodedLabel) = "no_crop"
                    · rw [if_pos hgate] at hok
                      simp only [convertedReturn, Except.ok.injEq] at hok
                      exact Or.inl ⟨hgate, hok.symm⟩
                    · rw [if_neg hgate] at hok
                      simp only [convertedReturn, Except.ok.injEq] at hok
                      exact Or.inr ⟨hgate, hok.symm⟩
                  | false =>
                    rw [hsp, if_neg (by simp)] at hok
                    refine Or.inr ⟨rfl, ?_⟩
                    by_cases hd : pyLower (pyStrip env.xgbDecodedLabel) = "no_crop"
                    · rw [if_pos hd] at hok
                      simp only [convertedReturn, Except.ok.injEq] at hok
                      exact Or.inl ⟨hd, hok.symm⟩
                    · rw [if_neg hd] at hok
                      simp only [convertedReturn, Except.ok.injEq] at hok
                      exact Or.inr ⟨hd, hok.symm⟩
              · rw [if_pos hB] at hok
                simp only [convertedReturn, Except.ok.injEq] at hok
                exact Or.inl ⟨Or.inr hB, hok.symm⟩
            · rw [if_pos hA] at hok
              simp only [convertedReturn, Except.ok.injEq] at hok
              exact Or.inl ⟨Or.inl hA, hok.symm⟩

/-- C9: invariant of every successful response, on every exit path —
whenever `recommended_crop` equals the sentinel "no_crop", both the
companions and the avoid list are empty. (The only paths that set a
non-sentinel crop first check that the decoded label, stripped and
lowercased, differs from "no_crop", so the label cannot be the literal
sentinel string.) -/
theorem no_crop_empty_relationship_invariant (env : Env) (req : PredictRequest)
    (res : PredictionResult) (hok : predict env req = Except.ok res)
    (hnc : res.recommended_crop = "no_crop") :
    res.companions = [] ∧ res.avoid = [] := by
  have hk : pyLower (pyStrip "no_crop") = "no_crop" := by decide
  rcases predict_ok_characterization env req res hok with ⟨_, hres⟩ |
    ⟨y, N, P, K, _, _, _, _, _, hbr⟩
  · subst hres; exact ⟨rfl, rfl⟩
  · rcases hbr with ⟨_, hres⟩ | ⟨_, _, _, hxg⟩
    · subst hres; exact ⟨rfl, rfl⟩
    · rcases hxg with ⟨_, hg⟩ | ⟨_, hg⟩
      · rcases hg with ⟨_, hres⟩ | ⟨hgate, hres⟩
        · subst hres; exact ⟨rfl, rfl⟩
        · subst hres
          have hnc' : env.xgbDecodedLabel = "no_crop" := hnc
          have hlow : pyLower (pyStrip env.xgbDecodedLabel) = "no_crop" := by
            rw [hnc']; exact hk
          exact absurd (Or.inr hlow) hgate
      · rcases hg with ⟨_, hres⟩ | ⟨hd, hres⟩
        · subst hres; exact ⟨rfl, rfl⟩
        · subst hres
          have hnc' : env.xgbDecodedLabel = "no_crop" := hnc
          have hlow : pyLower (pyStrip env.xgbDecodedLabel) = "no_crop" := by
            rw [hnc']; exact hk
          exact absurd hlow hd

/-- C9 witness: a no-soil run whose response has `recommended_crop =
"no_crop"`, instantiating the invariant. -/
theorem no_crop_empty_relationship_invariant_witness :
    ({ soil_texture := "No soil detected", recommended_crop := "no_crop",
       companions := [], avoid := [], confidence := none,
       converted_values := ⟨17, 20, 44, 49/10⟩ } : PredictionResult).companions = [] ∧
    ({ soil_texture := "No soil detected", recommended_crop := "no_crop",
       companions := [], avoid := [], confidence := none,
       converted_values := ⟨17, 20, 44, 49/10⟩ } : PredictionResult).avoid = [] :=
  no_crop_empty_relationship_invariant
    { prefilterIsSoil := false, yoloProbs := none, xgbRaises := false,
      xgbSupportsProba := true, xgbDecodedLabel := "rice", xgbMaxProba := 9/10,
      companionTable := [], avoidTable := [], persistOk := true }
    { imageUrl := "u", image_name := none, N := 17, P := 20, K := 44,
      ph := 49/10, pot_name := "p" }
    _ rfl rfl

/-- C10: (a) when the crop model supports `predict_proba` and the top-class
probability is strictly below `CROP_TOP_PROB_THRESHOLD`, the response is
`no_crop` but `confidence` equals that raw sub-threshold probability — not
null; (b) a null `confidence` on a successful response can only arise on
the pre-filter-reject, no-soil/not-soil, out-of-range, or no-predict_proba
paths. -/
theorem sub_threshold_confidence_reported :
    (∀ (env : Env) (req : PredictRequest) (y : YoloOutcome) (N P K : ℚ),
      env.prefilterIsSoil = true → env.yoloProbs = some y →
      ¬ y.top1conf < SOIL_CONF_THRESHOLD →
      pyReplace (pyLower (pyStrip y.rawLabel)) " " "_" ∉ NOT_SOIL_SENTINELS →
      convert_mgkg_to_kgha req.N req.P req.K
        (pyCapitalize (pyReplace y.rawLabel "_Trained" "")) = some (N, P, K) →
      (NPK_MIN ≤ N ∧ N ≤ NPK_MAX ∧ NPK_MIN ≤ P ∧ P ≤ NPK_MAX ∧
       NPK_MIN ≤ K ∧ K ≤ NPK_MAX) →
      (PH_MIN ≤ req.ph ∧ req.ph ≤ PH_MAX) →
      env.xgbRaises = false → env.xgbSupportsProba = true →
      env.xgbMaxProba < CROP_TOP_PROB_THRESHOLD →
      predict env req = Except.ok
        { soil_texture := pyCapitalize (pyReplace y.rawLabel "_Trained" ""),
          recommended_crop := "no_crop", companions := [], avoid := [],
          confidence := some env.xgbMaxProba,
          converted_values := ⟨N, P, K, req.ph⟩ }) ∧
    (∀ (env : Env) (req : PredictRequest) (res : PredictionResult),
      predict env req = Except.ok res → res.confidence = none →
      env.prefilterIsSoil = false ∨ env.yoloProbs = none ∨
      (∃ y : YoloOutcome, env.yoloProbs = some y ∧
        (y.top1conf < SOIL_CONF_THRESHOLD ∨
         pyReplace (pyLower (pyStrip y.rawLabel)) " " "_" ∈ NOT_SOIL_SENTINELS)) ∨
      (∃ (y : YoloOutcome) (N P K : ℚ), env.yoloProbs = some y ∧
        convert_mgkg_to_kgha req.N req.P req.K
          (pyCapitalize (pyReplace y.rawLabel "_Trained" "")) = some (N, P, K) ∧
        (¬ (NPK_MIN ≤ N ∧ N ≤ NPK_MAX ∧ NPK_MIN ≤ P ∧ P ≤ NPK_MAX ∧
            NPK_MIN ≤ K ∧ K ≤ NPK_MAX) ∨
         ¬ (PH_MIN ≤ req.ph ∧ req.ph ≤ PH_MAX))) ∨
      env.xgbSupportsProba = false) := by
  constructor
  · intro env req y N P K hpre hy hconf hsent hconv hA hB hraise hproba hlt
    unfold predict
    rw [hpre, if_neg (by simp), hy]
    simp only
    rw [if_neg hconf, if_neg hsent, hconv]
    simp only
    rw [if_neg (not_not_intro hA), if_neg (not_not_intro hB), hraise,
        if_neg (by simp), hproba, if_pos rfl, if_pos (Or.inl hlt)]
    rfl
  · intro env req res hok hcn
    rcases predict_ok_characterization env req res hok with ⟨hcond, _⟩ |
      ⟨y, N, P, K, _, hy, _, _, hcv, hbr⟩
    · rcases hcond with h | h | h
      · exact Or.inl h
      · exact Or.inr (Or.inl h)
      · exact Or.inr (Or.inr (Or.inl h))
    · rcases hbr with ⟨hrange, _⟩ | ⟨hA, hB, _, hxg⟩
      · exact Or.inr (Or.inr (Or.inr (Or.inl ⟨y, N, P, K, hy, hcv, hrange⟩)))
      · rcases hxg with ⟨_, hg⟩ | ⟨hsp, _⟩
        · rcases hg with ⟨_, hres⟩ | ⟨_, hres⟩ <;> subst hres <;> simp at hcn
        · exact Or.inr (Or.inr (Or.inr (Or.inr hsp)))

/-- C10 witness: part (a) at a concrete sub-threshold run (probability
1/5 < 7/10, decoded label "rice": response is `no_crop` yet confidence is
the raw 1/5), and part (b) at a concrete no-soil run. -/
theorem sub_threshold_confidence_reported_witness :
    predict
      { prefilterIsSoil := true, yoloProbs := some ⟨9/10, "Clay_Trained"⟩,
        xgbRaises := false, xgbSupportsProba := true, xgbDecodedLabel := "rice",
        xgbMaxProba := 1/5, companionTable := [], avoidTable := [],
        persistOk := true }
      { imageUrl := "u", image_name := none, N := 17, P := 20, K := 44,
        ph := 49/10, pot_name := "p" } = Except.ok
      { soil_texture := "Clay", recommended_crop := "no_crop",
        companions := [], avoid := [], confidence := some (1/5),
        converted_values := ⟨1173/20, 69, 759/5, 49/10⟩ } ∧
    ((false : Bool) = false ∨ (none : Option YoloOutcome) = none ∨
      (∃ y : YoloOutcome, (none : Option YoloOutcome) = some y ∧
        (y.top1conf < SOIL_CONF_THRESHOLD ∨
         pyReplace (pyLower (pyStrip y.rawLabel)) " " "_" ∈ NOT_SOIL_SENTINELS)) ∨
      (∃ (y : YoloOutcome) (N P K : ℚ), (none : Option YoloOutcome) = some y ∧
        convert_mgkg_to_kgha 17 20 44
          (pyCapitalize (pyReplace y.rawLabel "_Trained" "")) = some (N, P, K) ∧
        (¬ (NPK_MIN ≤ N ∧ N ≤ NPK_MAX ∧ NPK_MIN ≤ P ∧ P ≤ NPK_MAX ∧
            NPK_MIN ≤ K ∧ K ≤ NPK_MAX) ∨
         ¬ (PH_MIN ≤ (49/10 : ℚ) ∧ (49/10 : ℚ) ≤ PH_MAX))) ∨
      (true : Bool) = false) :=
  ⟨sub_threshold_confidence_reported.1 _ _ ⟨9/10, "Clay_Trained"⟩ (1173/20) 69 (759/5)
    rfl rfl
    (by norm_num [SOIL_CONF_THRESHOLD] : ¬ (9/10 : ℚ) < SOIL_CONF_THRESHOLD)
    (by decide)
    (by
      rw [show pyCapitalize (pyReplace "Clay_Trained" "_Trained" "") = "Clay" from by decide,
        convert_eq_of_lookup "Clay" (23/20) 17 20 44
          (by rw [show pyLower "Clay" = "clay" from by decide]; exact lookup_bd_clay)]
      norm_num)
    (by norm_num [NPK_MIN, NPK_MAX]) (by norm_num [PH_MIN, PH_MAX]) rfl rfl
    (by norm_num [CROP_TOP_PROB_THRESHOLD]),
   sub_threshold_confidence_reported.2
    { prefilterIsSoil := false, yoloProbs := none, xgbRaises := false,
      xgbSupportsProba := true, xgbDecodedLabel := "rice", xgbMaxProba := 9/10,
      companionTable := [], avoidTable := [], persistOk := true }
    { imageUrl := "u", image_name := none, N := 17, P := 20, K := 44,
      ph := 49/10, pot_name := "p" }
    _ rfl rfl⟩

end Farmulate
